import Mathlib

/-!
Shallow embedding of the local collection store of the Sidlume storefront app
(cart and wishlist screens backed by an asynchronous string-keyed storage).

JavaScript numbers are embedded as exact rationals (`ℚ`) for prices and as
integers (`ℤ`) for product ids and quantities.  Each screen-level operation is
embedded as a pure function on the state it manipulates; the asynchronous
storage adapter is modelled by passing the persisted value (and, where a claim
needs it, an injected success/failure outcome of the write) explicitly.
-/

/-- `Product` as declared in the shop and product-details screens:
`{ id, title, price, description, category, image }`. -/
structure Product where
  id : ℤ
  title : String
  price : ℚ
  description : String
  category : String
  image : String
deriving Repr, DecidableEq

/-- `Product` as declared in the wishlist screen (only the four fields that
screen uses): `{ id, title, price, image }`. -/
structure WProduct where
  id : ℤ
  title : String
  price : ℚ
  image : String
deriving Repr, DecidableEq

/-- `CartItem` as declared in the cart screen:
`{ id, title, price, image, quantity }`. -/
structure CartItem where
  id : ℤ
  title : String
  price : ℚ
  image : String
  quantity : ℤ
deriving Repr, DecidableEq

/-- The pure list transformation inside `updateQuantity(id, increment)` of the
cart screen: map each item, replacing the matching item by `null` when the new
quantity would drop below 1, then drop the `null`s (`filter(Boolean)`). -/
def updateQuantity (pid : ℤ) (increment : Bool) (cartItems : List CartItem) :
    List CartItem :=
  (cartItems.map (fun item =>
    if item.id = pid then
      let newQuantity := if increment then item.quantity + 1 else item.quantity - 1
      if newQuantity < 1 then none else some { item with quantity := newQuantity }
    else some item)).reduceOption

/-- The pure list transformation inside `removeItem(id)` of the cart screen:
`cartItems.filter(item => item.id !== id)`. -/
def removeItem (pid : ℤ) (cartItems : List CartItem) : List CartItem :=
  cartItems.filter (fun item => item.id != pid)

/-- `getTotalPrice()` of the cart screen:
`cartItems.reduce((total, item) => total + item.price * item.quantity, 0)`. -/
def getTotalPrice (cartItems : List CartItem) : ℚ :=
  cartItems.foldl (fun total item => total + item.price * (item.quantity : ℚ)) 0

/-- Helper capturing the effect of `existingItem.quantity += 1` after
`cart.find(item => item.id === product.id)`: the first item whose id matches
gets its quantity incremented in place; everything else is untouched. -/
def incFirst (pid : ℤ) : List CartItem → List CartItem
  | [] => []
  | item :: rest =>
    if item.id = pid then { item with quantity := item.quantity + 1 } :: rest
    else item :: incFirst pid rest

/-- The pure cart transformation inside `addToCart` of the product-details
screen: if `cart.find(item => item.id === product.id)` succeeds, that item's
quantity is incremented; otherwise
`{ id, title, price, image, quantity: 1 }` is pushed at the end. -/
def addToCart (p : Product) (cart : List CartItem) : List CartItem :=
  if cart.any (fun item => item.id == p.id) then incFirst p.id cart
  else cart ++ [{ id := p.id, title := p.title, price := p.price,
                  image := p.image, quantity := 1 }]

/-- The pure cart transformation inside `addToCart` of the wishlist screen:
identical read-modify-write body, except the new line item is built by
`{ ...product, quantity: 1 }` from that screen's four-field product. -/
def wishlistAddToCart (p : WProduct) (cart : List CartItem) : List CartItem :=
  if cart.any (fun item => item.id == p.id) then incFirst p.id cart
  else cart ++ [{ id := p.id, title := p.title, price := p.price,
                  image := p.image, quantity := 1 }]

/-- The pure wishlist transformation inside `toggleWishlist(productId)` of the
shop screen: `wishlist.includes(productId)` decides between
`wishlist.filter(id => id !== productId)` and `[...wishlist, productId]`. -/
def toggleWishlist (productId : ℤ) (wishlist : List ℤ) : List ℤ :=
  if wishlist.contains productId then
    wishlist.filter (fun itemId => itemId != productId)
  else wishlist ++ [productId]

/-- The pure wishlist transformation inside `toggleWishlist()` of the
product-details screen: the branch is taken on the screen's cached
`isInWishlist` flag (set from storage at mount time), not on membership in the
freshly read list; the absent branch does `wishlist.push(Number(id))`. -/
def detailsToggleWishlist (isInWishlist : Bool) (routeId : ℤ)
    (wishlist : List ℤ) : List ℤ :=
  if isInWishlist then wishlist.filter (fun itemId => itemId != routeId)
  else wishlist ++ [routeId]

/-- The pure wishlist-ids transformation inside `removeFromWishlist(productId)`
of the wishlist screen: `wishlistIds.filter(id => id !== productId)`. -/
def removeFromWishlist (productId : ℤ) (wishlistIds : List ℤ) : List ℤ :=
  wishlistIds.filter (fun itemId => itemId != productId)

/-! ## Persistence runs with an injected write outcome

Every mutating screen handler is an `async` function of shape
`try { ...; await AsyncStorage.setItem(key, ...); ... } catch (e) { console.error(...) }`.
The returned promise therefore always resolves normally — a caught write
failure is only logged.  `StoreState` pairs the in-memory mirror (`mem`, the
React state the screen renders) with the persisted record (`disk`, what a
subsequent read of the storage key parses to).  `writeOk` injects whether the
`setItem` call succeeds. -/

/-- In-memory mirror plus persisted record for one collection. -/
structure StoreState (α : Type) where
  mem : α
  disk : α
deriving Repr, DecidableEq

/-- `updateCart(newCart)` of the cart screen with an injected write outcome:
`setItem` first, `setCartItems(newCart)` only after the write succeeded; a
throwing write is caught and logged, so the promise still resolves (`.ok`). -/
def updateCartRun (writeOk : Bool) (newCart : List CartItem)
    (s : StoreState (List CartItem)) :
    StoreState (List CartItem) × Except Unit Unit :=
  if writeOk then (⟨newCart, newCart⟩, .ok ())
  else (s, .ok ())

/-- `toggleWishlist(productId)` of the shop screen with an injected write
outcome: the new list is computed from the in-memory `wishlist` state,
`setWishlist(newWishlist)` runs *before* `await AsyncStorage.setItem`, and a
throwing write is caught and logged — the in-memory update is never rolled
back. -/
def shopToggleWishlistRun (writeOk : Bool) (productId : ℤ)
    (s : StoreState (List ℤ)) : StoreState (List ℤ) × Except Unit Unit :=
  let newWishlist := toggleWishlist productId s.mem
  if writeOk then (⟨newWishlist, newWishlist⟩, .ok ())
  else (⟨newWishlist, s.disk⟩, .ok ())

/-- Screen state of the product-details screen that `toggleWishlist()` uses:
the cached `isInWishlist` flag plus the persisted wishlist record. -/
structure DetailsState where
  flag : Bool
  disk : List ℤ
deriving Repr, DecidableEq

/-- `toggleWishlist()` of the product-details screen with an injected write
outcome: it reads the persisted list, computes via the cached flag, awaits the
write, and only then flips the flag with `setIsInWishlist(!isInWishlist)`; a
throwing write skips the flag flip and is caught and logged. -/
def detailsToggleRun (writeOk : Bool) (routeId : ℤ) (s : DetailsState) :
    DetailsState × Except Unit Unit :=
  let newWishlist := detailsToggleWishlist s.flag routeId s.disk
  if writeOk then (⟨!s.flag, newWishlist⟩, .ok ())
  else (s, .ok ())

/-! ## Loading a persisted record (cart screen `loadCart`, shop `loadWishlist`)

`AsyncStorage.getItem` may resolve `null`, reject, or resolve a string;
`JSON.parse` on that string may throw, or may yield a JavaScript value that is
or is not of the shape the screen's TypeScript type promises.  Nothing in the
code validates the shape, so a parsed value of the wrong shape is installed
into React state as-is; `JsVal.junk` stands for any such non-conforming
value. -/

/-- What a screen's React state can hold after an unvalidated
`setState(JSON.parse(...))`: a value of the expected shape, or anything
else. -/
inductive JsVal (α : Type) where
  | ok (val : α)
  | junk
deriving Repr, DecidableEq

/-- The possible outcomes of `await AsyncStorage.getItem(key)` followed by
`JSON.parse`: no stored value, a rejecting read, a stored string that
`JSON.parse` throws on, or a successfully parsed JavaScript value. -/
inductive ReadOutcome (α : Type) where
  | absent
  | readThrows
  | malformed
  | parsed (v : JsVal α)
deriving Repr, DecidableEq

/-- `loadCart()` of the cart screen: `setCartItems(JSON.parse(cartData))` runs
only when the read resolved a truthy string that parses; a rejecting read or a
throwing parse is caught and logged, leaving the state (initially `[]`) as it
was.  No shape validation occurs, so a parsed non-cart value is installed. -/
def loadCart (r : ReadOutcome (List CartItem)) (cur : JsVal (List CartItem)) :
    JsVal (List CartItem) :=
  match r with
  | .absent => cur
  | .readThrows => cur
  | .malformed => cur
  | .parsed v => v

/-- `loadWishlist()` of the shop screen: same structure as `loadCart` on the
`wishlist` key — `setWishlist(JSON.parse(wishlistData))` with a catch-and-log
around read and parse, and no shape validation. -/
def shopLoadWishlist (r : ReadOutcome (List ℤ)) (cur : JsVal (List ℤ)) :
    JsVal (List ℤ) :=
  match r with
  | .absent => cur
  | .readThrows => cur
  | .malformed => cur
  | .parsed v => v

/-! ## Bulk hydration (wishlist screen `loadWishlist`)

The wishlist screen maps every stored id to
`axios.get('https://fakestoreapi.com/products/' + id)` and awaits
`Promise.all` of the results; `Promise.all` rejects as soon as any single
lookup rejects, and the surrounding `try`/`catch` then logs the error and
leaves `wishlistItems` untouched.  `fetchProduct` abstracts the catalog
collaborator: `none` means the lookup for that id failed. -/

/-- `Promise.all(wishlistIds.map(id => fetch(id)))`: all lookups must succeed
for any product to be delivered; one failure rejects the whole batch. -/
def hydrateWishlist (fetchProduct : ℤ → Option WProduct) (ids : List ℤ) :
    Option (List WProduct) :=
  ids.mapM fetchProduct

/-- `loadWishlist()` of the wishlist screen: when a stored id list exists,
`setWishlistItems(products)` runs only if the whole `Promise.all` resolved;
otherwise the catch logs and the previous `wishlistItems` state remains. -/
def loadWishlistItems (fetchProduct : ℤ → Option WProduct)
    (stored : Option (List ℤ)) (prev : List WProduct) : List WProduct :=
  match stored with
  | none => prev
  | some ids =>
    match hydrateWishlist fetchProduct ids with
    | none => prev
    | some products => products

/-! ## Interleaved `addToCart` calls

Per the cooperative scheduling model, an `addToCart(product)` call suspends
exactly at `await AsyncStorage.getItem` and `await AsyncStorage.setItem`; the
find/increment/push computation between them is synchronous.  A task is
therefore a two-step machine: its first step performs the read of the current
persisted cart and the synchronous computation, its second step performs the
write.  A schedule lists which of two tasks moves next. -/

/-- Progress of one in-flight `addToCart` call. -/
inductive TaskPhase where
  | ready
  | writing (newCart : List CartItem)
  | finished
deriving Repr, DecidableEq

/-- Persisted cart plus the phases of two in-flight `addToCart p` calls. -/
structure RaceState where
  disk : List CartItem
  taskA : TaskPhase
  taskB : TaskPhase
deriving Repr, DecidableEq

/-- Advance one task: from `ready` it reads the persisted cart and computes
the new cart (`addToCart`), from `writing` it writes that cart. -/
def stepTask (p : Product) (ph : TaskPhase) (disk : List CartItem) :
    TaskPhase × List CartItem :=
  match ph with
  | .ready => (.writing (addToCart p disk), disk)
  | .writing newCart => (.finished, newCart)
  | .finished => (.finished, disk)

/-- Which of the two in-flight calls the scheduler resumes. -/
inductive Tid where
  | a
  | b
deriving Repr, DecidableEq

/-- Run two in-flight `addToCart p` calls under an explicit schedule. -/
def runRace (p : Product) : List Tid → RaceState → RaceState
  | [], s => s
  | .a :: rest, s =>
    let (ph, d) := stepTask p s.taskA s.disk
    runRace p rest ⟨d, ph, s.taskB⟩
  | .b :: rest, s =>
    let (ph, d) := stepTask p s.taskB s.disk
    runRace p rest ⟨d, s.taskA, ph⟩

/-! ## Reachable cart states

The persisted cart record starts empty and is only ever rewritten through the
four cart mutations of the app's screens. -/

/-- Cart records reachable from the initially empty cart through the app's
cart mutations: product-details `addToCart`, wishlist-screen `addToCart`,
cart-screen `updateQuantity` and `removeItem`. -/
inductive CartReachable : List CartItem → Prop
  | empty : CartReachable []
  | add (p : Product) {c : List CartItem} :
      CartReachable c → CartReachable (addToCart p c)
  | wadd (p : WProduct) {c : List CartItem} :
      CartReachable c → CartReachable (wishlistAddToCart p c)
  | update (pid : ℤ) (increment : Bool) {c : List CartItem} :
      CartReachable c → CartReachable (updateQuantity pid increment c)
  | remove (pid : ℤ) {c : List CartItem} :
      CartReachable c → CartReachable (removeItem pid c)

/-! ## Concrete sample data for witnesses and counterexamples -/

/-- A sample catalog product. -/
def sampleProduct : Product :=
  { id := 1, title := "A", price := 10, description := "d", category := "c",
    image := "u" }

/-- A sample wishlist-screen product. -/
def sampleWProduct : WProduct :=
  { id := 1, title := "A", price := 10, image := "u" }

/-- The cart line item created from `sampleProduct`. -/
def sampleItem : CartItem :=
  { id := 1, title := "A", price := 10, image := "u", quantity := 1 }

/-- A catalog lookup function that succeeds on id 1 and fails on all other
ids, used to exercise partial-failure behaviour of the hydration. -/
def sampleFetch : ℤ → Option WProduct :=
  fun i => if i = 1 then some sampleWProduct else none

/-! ## Helper lemmas -/

/-- Folding `total + f item` from accumulator `a` yields `a` plus the sum of
the mapped list. -/
lemma foldl_add_map_sum (f : CartItem → ℚ) :
    ∀ (l : List CartItem) (a : ℚ),
      l.foldl (fun total item => total + f item) a = a + (l.map f).sum := by
  intro l
  induction l with
  | nil => intro a; simp
  | cons x xs ih => intro a; simp [ih, add_assoc]

/-- Membership in the shop screen's `toggleWishlist` result. -/
lemma mem_toggleWishlist (productId x : ℤ) (wishlist : List ℤ) :
    x ∈ toggleWishlist productId wishlist ↔
      (if x = productId then productId ∉ wishlist else x ∈ wishlist) := by
  unfold toggleWishlist
  by_cases hc : productId ∈ wishlist
  · simp [hc, List.mem_filter]
    by_cases hx : x = productId
    · simp [hx, hc]
    · simp [hx]
  · simp [hc, List.mem_filter]
    by_cases hx : x = productId
    · simp [hx, hc]
    · simp [hx]

/-- One step of `updateQuantity` unfolded on a cons cell. -/
lemma updateQuantity_cons (pid : ℤ) (increment : Bool) (x : CartItem)
    (xs : List CartItem) :
    updateQuantity pid increment (x :: xs) =
      if x.id = pid then
        (if (if increment then x.quantity + 1 else x.quantity - 1) < 1 then
          updateQuantity pid increment xs
        else
          { x with quantity := if increment then x.quantity + 1 else x.quantity - 1 }
            :: updateQuantity pid increment xs)
      else x :: updateQuantity pid increment xs := by
  by_cases hx : x.id = pid
  · by_cases hq : (if increment then x.quantity + 1 else x.quantity - 1) < 1
    · simp [updateQuantity, hx, hq]
    · simp [updateQuantity, hx, hq]
  · simp [updateQuantity, hx]

/-- `updateQuantity` does not touch the sublist of items with a different
id. -/
lemma updateQuantity_frame (pid : ℤ) (increment : Bool) :
    ∀ cartItems : List CartItem,
      (updateQuantity pid increment cartItems).filter (fun it => it.id != pid)
        = cartItems.filter (fun it => it.id != pid) := by
  intro l
  induction l with
  | nil => rfl
  | cons x xs ih =>
    rw [updateQuantity_cons]
    by_cases hx : x.id = pid
    · by_cases hq : (if increment then x.quantity + 1 else x.quantity - 1) < 1
      · simp [hx, hq, List.filter_cons, ih]
      · simp [hx, hq, List.filter_cons, ih]
    · simp [hx, List.filter_cons, ih]

/-- `incFirst` does not touch the sublist of items with a different id. -/
lemma incFirst_frame (pid : ℤ) :
    ∀ l : List CartItem,
      (incFirst pid l).filter (fun it => it.id != pid)
        = l.filter (fun it => it.id != pid) := by
  intro l
  induction l with
  | nil => rfl
  | cons x xs ih =>
    by_cases hx : x.id = pid
    · simp [incFirst, hx, List.filter_cons]
    · simp [incFirst, hx, List.filter_cons, ih]

/-- `addToCart` does not touch the sublist of items with an id different from
the added product's. -/
lemma addToCart_frame (p : Product) (cart : List CartItem) :
    (addToCart p cart).filter (fun it => it.id != p.id)
      = cart.filter (fun it => it.id != p.id) := by
  unfold addToCart
  by_cases h : cart.any (fun item => item.id == p.id)
  · simp [h, incFirst_frame]
  · simp [h, List.filter_append]

/-- A cart with no item of the given id satisfies
`any (·.id == pid) = false`. -/
lemma any_eq_false_of_all_ne {pid : ℤ} {cart : List CartItem}
    (h : cart.all (fun x => x.id != pid) = true) :
    cart.any (fun item => item.id == pid) = false := by
  simp only [List.all_eq_true, bne_iff_ne, ne_eq] at h
  simp only [List.any_eq_false, beq_iff_eq]
  exact h

/-- `incFirst` increments the first item with the given id when all items
before it have different ids. -/
lemma incFirst_append (pid : ℤ) (after : List CartItem) (it : CartItem)
    (hit : it.id = pid) :
    ∀ before : List CartItem, before.all (fun x => x.id != pid) = true →
      incFirst pid (before ++ it :: after)
        = before ++ { it with quantity := it.quantity + 1 } :: after := by
  intro before
  induction before with
  | nil => intro _; simp [incFirst, hit]
  | cons b bs ih =>
    intro hb
    simp only [List.all_cons, Bool.and_eq_true, bne_iff_ne, ne_eq] at hb
    have hb1 : b.id ≠ pid := hb.1
    simp [incFirst, hb1, ih hb.2]

/-- All quantities stay at least 1 through `updateQuantity`. -/
lemma qty_updateQuantity (pid : ℤ) (increment : Bool) :
    ∀ c : List CartItem, (∀ it ∈ c, 1 ≤ it.quantity) →
      ∀ it ∈ updateQuantity pid increment c, 1 ≤ it.quantity := by
  intro c
  induction c with
  | nil => intro _ it hit; simp [updateQuantity] at hit
  | cons x xs ih =>
    intro h it hit
    have hx1 : 1 ≤ x.quantity := h x (by simp)
    have hxs : ∀ it ∈ xs, 1 ≤ it.quantity := fun j hj => h j (by simp [hj])
    rw [updateQuantity_cons] at hit
    by_cases hx : x.id = pid
    · rw [if_pos hx] at hit
      by_cases hq : (if increment then x.quantity + 1 else x.quantity - 1) < 1
      · rw [if_pos hq] at hit
        exact ih hxs it hit
      · rw [if_neg hq] at hit
        rcases List.mem_cons.mp hit with h1 | h2
        · subst h1; simp only []; omega
        · exact ih hxs it h2
    · rw [if_neg hx] at hit
      rcases List.mem_cons.mp hit with h1 | h2
      · subst h1; exact hx1
      · exact ih hxs it h2

/-- An item of the targeted id that survives `updateQuantity` has quantity at
least 1 (a computed quantity below 1 removes the item instead). -/
lemma updateQuantity_target_pos (pid : ℤ) (increment : Bool) :
    ∀ c : List CartItem, ∀ it ∈ updateQuantity pid increment c,
      it.id = pid → 1 ≤ it.quantity := by
  intro c
  induction c with
  | nil => intro it hit; simp [updateQuantity] at hit
  | cons x xs ih =>
    intro it hit hid
    rw [updateQuantity_cons] at hit
    by_cases hx : x.id = pid
    · rw [if_pos hx] at hit
      by_cases hq : (if increment then x.quantity + 1 else x.quantity - 1) < 1
      · rw [if_pos hq] at hit
        exact ih it hit hid
      · rw [if_neg hq] at hit
        rcases List.mem_cons.mp hit with h1 | h2
        · subst h1; simp only []; omega
        · exact ih it h2 hid
    · rw [if_neg hx] at hit
      rcases List.mem_cons.mp hit with h1 | h2
      · subst h1; exact absurd hid hx
      · exact ih it h2 hid

/-- `updateQuantity` on an id not present in the cart leaves it unchanged. -/
lemma updateQuantity_absent (pid : ℤ) (increment : Bool) :
    ∀ c : List CartItem, c.all (fun it => it.id != pid) = true →
      updateQuantity pid increment c = c := by
  intro c
  induction c with
  | nil => intro _; rfl
  | cons x xs ih =>
    intro h
    simp only [List.all_cons, Bool.and_eq_true, bne_iff_ne, ne_eq] at h
    rw [updateQuantity_cons, if_neg h.1, ih h.2]

/-- All quantities stay at least 1 through `incFirst`. -/
lemma qty_incFirst (pid : ℤ) :
    ∀ c : List CartItem, (∀ it ∈ c, 1 ≤ it.quantity) →
      ∀ it ∈ incFirst pid c, 1 ≤ it.quantity := by
  intro c
  induction c with
  | nil => intro _ it hit; simp [incFirst] at hit
  | cons x xs ih =>
    intro h it hit
    have hx1 : 1 ≤ x.quantity := h x (by simp)
    have hxs : ∀ j ∈ xs, 1 ≤ j.quantity := fun j hj => h j (by simp [hj])
    by_cases hx : x.id = pid
    · rw [incFirst, if_pos hx] at hit
      rcases List.mem_cons.mp hit with h1 | h2
      · subst h1; simp only []; omega
      · exact hxs it h2
    · rw [incFirst, if_neg hx] at hit
      rcases List.mem_cons.mp hit with h1 | h2
      · subst h1; exact hx1
      · exact ih hxs it h2

/-- All quantities stay at least 1 through `addToCart`. -/
lemma qty_addToCart (p : Product) (c : List CartItem)
    (h : ∀ it ∈ c, 1 ≤ it.quantity) :
    ∀ it ∈ addToCart p c, 1 ≤ it.quantity := by
  intro it hit
  unfold addToCart at hit
  by_cases hc : c.any (fun item => item.id == p.id)
  · rw [if_pos hc] at hit
    exact qty_incFirst p.id c h it hit
  · rw [if_neg hc] at hit
    rcases List.mem_append.mp hit with h1 | h2
    · exact h it h1
    · simp at h2
      subst h2
      simp

/-- All quantities stay at least 1 through `wishlistAddToCart`. -/
lemma qty_wishlistAddToCart (p : WProduct) (c : List CartItem)
    (h : ∀ it ∈ c, 1 ≤ it.quantity) :
    ∀ it ∈ wishlistAddToCart p c, 1 ≤ it.quantity := by
  intro it hit
  unfold wishlistAddToCart at hit
  by_cases hc : c.any (fun item => item.id == p.id)
  · rw [if_pos hc] at hit
    exact qty_incFirst p.id c h it hit
  · rw [if_neg hc] at hit
    rcases List.mem_append.mp hit with h1 | h2
    · exact h it h1
    · simp at h2
      subst h2
      simp

/-- All quantities stay at least 1 through `removeItem`. -/
lemma qty_removeItem (pid : ℤ) (c : List CartItem)
    (h : ∀ it ∈ c, 1 ≤ it.quantity) :
    ∀ it ∈ removeItem pid c, 1 ≤ it.quantity := by
  intro it hit
  exact h it (List.mem_of_mem_filter hit)

/-- Decrementing when every targeted item is at quantity 1 (or below) removes
those items entirely: no line item with the targeted id survives. -/
lemma updateQuantity_removes (pid : ℤ) :
    ∀ c : List CartItem, (∀ it ∈ c, it.id = pid → it.quantity ≤ 1) →
      (updateQuantity pid false c).all (fun it => it.id != pid) = true := by
  intro c
  induction c with
  | nil => intro _; rfl
  | cons x xs ih =>
    intro h
    have hxs : ∀ it ∈ xs, it.id = pid → it.quantity ≤ 1 :=
      fun it hit => h it (by simp [hit])
    rw [updateQuantity_cons]
    by_cases hx : x.id = pid
    · have hq : (if false then x.quantity + 1 else x.quantity - 1) < 1 := by
        have := h x (by simp) hx
        simp only [Bool.false_eq_true, if_false]
        omega
      rw [if_pos hx, if_pos hq]
      exact ih hxs
    · rw [if_neg hx]
      simp only [List.all_cons, Bool.and_eq_true, bne_iff_ne, ne_eq]
      exact ⟨hx, ih hxs⟩

/-- Decidable form of the quantity invariant: every line item has quantity at
least 1. -/
def quantitiesPositive (c : List CartItem) : Bool :=
  c.all (fun it => decide (1 ≤ it.quantity))

/-- Every reachable cart state satisfies the quantity invariant. -/
lemma cartReachable_quantitiesPositive {c : List CartItem}
    (h : CartReachable c) : quantitiesPositive c = true := by
  have key : ∀ it ∈ c, 1 ≤ it.quantity := by
    induction h with
    | empty => intro it hit; simp at hit
    | add p _ ih => exact qty_addToCart _ _ ih
    | wadd p _ ih => exact qty_wishlistAddToCart _ _ ih
    | update pid increment _ ih => exact qty_updateQuantity _ _ _ ih
    | remove pid _ ih => exact qty_removeItem _ _ ih
  simp only [quantitiesPositive, List.all_eq_true, decide_eq_true_eq]
  exact key

/-! ## Claim theorems -/

/-- C1 (counterexample): the claim that every cart or wishlist mutation rolls
back the in-memory state on a failed persistence write and fails with
`StorageWriteError` is false at a concrete input: the shop screen's
`toggleWishlist(5)` on the empty store with a failing write leaves the
in-memory wishlist at the post-mutation value `[5]`, not the pre-mutation
`[]`, and the cart screen's `updateCart` resolves normally (error swallowed)
instead of failing. -/
theorem claim1_counterexample :
    (shopToggleWishlistRun false 5 ⟨[], []⟩).1.mem = [5]
    ∧ ([5] : List ℤ) ≠ []
    ∧ (updateCartRun false [sampleItem] ⟨[], []⟩).2 = .ok () := by
  refine ⟨rfl, by decide, rfl⟩

/-- C1 (amended): on a failed persistence write, the cart screen's
`updateCart` and the product-details `toggleWishlist` leave both memory and
disk at the pre-mutation state, while the shop screen's `toggleWishlist`
leaves only the persisted state (hence a subsequent load) at the pre-mutation
value, its in-memory state having already been set to the post-toggle list;
no operation surfaces a write error — every handler catches and logs it and
resolves normally. -/
theorem claim1_amended_write_failure :
    (∀ (newCart : List CartItem) (s : StoreState (List CartItem)),
        (updateCartRun false newCart s).1 = s
        ∧ (updateCartRun false newCart s).2 = .ok ())
    ∧ (∀ (routeId : ℤ) (s : DetailsState),
        (detailsToggleRun false routeId s).1 = s
        ∧ (detailsToggleRun false routeId s).2 = .ok ())
    ∧ (∀ (productId : ℤ) (s : StoreState (List ℤ)),
        (shopToggleWishlistRun false productId s).1.disk = s.disk
        ∧ (shopToggleWishlistRun false productId s).1.mem
            = toggleWishlist productId s.mem
        ∧ (shopToggleWishlistRun false productId s).2 = .ok ()) := by
  exact ⟨fun _ _ => ⟨rfl, rfl⟩, fun _ _ => ⟨rfl, rfl⟩,
    fun _ _ => ⟨rfl, rfl, rfl⟩⟩

/-- C2: two concurrent `addToCart sampleProduct` calls are not serialized —
under the schedule where both storage reads happen before either write, the
final persisted cart holds the item with quantity 1 (the claim demands 2);
only the fully sequential schedule produces quantity 2. -/
theorem claim2_lost_update_race :
    (runRace sampleProduct [.a, .b, .a, .b] ⟨[], .ready, .ready⟩).disk
        = [sampleItem]
    ∧ sampleItem.quantity = 1
    ∧ (runRace sampleProduct [.a, .a, .b, .b] ⟨[], .ready, .ready⟩).disk
        = [{ sampleItem with quantity := 2 }] := by
  refine ⟨by decide, rfl, by decide⟩

/-- C3: the product-details `toggleWishlist` does not preserve the wishlist
uniqueness invariant — from the duplicate-free wishlist `[5]`, toggling with a
stale cached `isInWishlist = false` flag pushes the id again, producing
`[5, 5]`. -/
theorem claim3_duplicate_id :
    ([5] : List ℤ).Nodup
    ∧ detailsToggleWishlist false 5 [5] = [5, 5]
    ∧ ¬ ([5, 5] : List ℤ).Nodup := by
  refine ⟨by decide, rfl, by decide⟩

/-- C4: every reachable cart state has all quantities at least 1; an item of
the targeted id that survives `updateQuantity` has quantity at least 1; a
decrement whose computed quantity drops below 1 removes the line item
entirely (no item with the targeted id survives — concretely, decrementing
the quantity-1 `sampleItem` yields the empty cart, not a clamped or zero
quantity); and `updateQuantity` on an id not present in the cart leaves the
cart unchanged (the operation still completes). -/
theorem claim4_quantity_invariant :
    (∀ c : List CartItem, CartReachable c → quantitiesPositive c = true)
    ∧ (∀ (pid : ℤ) (increment : Bool) (c : List CartItem),
        ∀ it ∈ updateQuantity pid increment c, it.id = pid → 1 ≤ it.quantity)
    ∧ (∀ (pid : ℤ) (c : List CartItem),
        (∀ it ∈ c, it.id = pid → it.quantity ≤ 1) →
        (updateQuantity pid false c).all (fun it => it.id != pid) = true)
    ∧ updateQuantity 1 false [sampleItem] = []
    ∧ (∀ (pid : ℤ) (increment : Bool) (c : List CartItem),
        c.all (fun it => it.id != pid) = true →
        updateQuantity pid increment c = c) := by
  exact ⟨fun _ h => cartReachable_quantitiesPositive h,
    fun pid increment c => updateQuantity_target_pos pid increment c,
    fun pid c => updateQuantity_removes pid c,
    by decide,
    fun pid increment c => updateQuantity_absent pid increment c⟩

/-- C4 witness: the invariant, the survivor bound, the decrement-to-zero
removal and the absent-id no-op at concrete inputs. -/
theorem claim4_witness :
    quantitiesPositive (addToCart sampleProduct []) = true
    ∧ 1 ≤ ({ sampleItem with quantity := 2 } : CartItem).quantity
    ∧ (updateQuantity 1 false [sampleItem]).all (fun it => it.id != 1) = true
    ∧ updateQuantity 7 true [sampleItem] = [sampleItem] := by
  refine ⟨claim4_quantity_invariant.1 _ (.add sampleProduct .empty),
    claim4_quantity_invariant.2.1 1 true [sampleItem]
      { sampleItem with quantity := 2 } (by decide) (by decide),
    claim4_quantity_invariant.2.2.1 1 [sampleItem] (by decide),
    claim4_quantity_invariant.2.2.2.2 7 true [sampleItem] (by decide)⟩

/-- C5: `getTotalPrice` equals the sum over all line items of
price × quantity, and is 0 on the empty cart (arithmetic embedded as exact
rationals). -/
theorem claim5_total_correct :
    (∀ cartItems : List CartItem,
        getTotalPrice cartItems
          = (cartItems.map (fun item => item.price * (item.quantity : ℚ))).sum)
    ∧ getTotalPrice [] = 0 := by
  constructor
  · intro l
    unfold getTotalPrice
    rw [foldl_add_map_sum]
    ring
  · rfl

/-- C6: both `addToCart` variants behave as add-or-increment: when an item
with the product's id is already present (first occurrence isolated by the
decomposition), exactly that item's quantity grows by 1 and nothing else
changes; when no item carries the id, a fresh line item with the product's
id, title, price, image and quantity 1 is appended at the end. -/
theorem claim6_add_or_increment :
    (∀ (p : Product) (before after : List CartItem) (it : CartItem),
        before.all (fun x => x.id != p.id) = true → it.id = p.id →
        addToCart p (before ++ it :: after)
          = before ++ { it with quantity := it.quantity + 1 } :: after)
    ∧ (∀ (p : Product) (cart : List CartItem),
        cart.all (fun x => x.id != p.id) = true →
        addToCart p cart
          = cart ++ [{ id := p.id, title := p.title, price := p.price,
                       image := p.image, quantity := 1 }])
    ∧ (∀ (p : WProduct) (before after : List CartItem) (it : CartItem),
        before.all (fun x => x.id != p.id) = true → it.id = p.id →
        wishlistAddToCart p (before ++ it :: after)
          = before ++ { it with quantity := it.quantity + 1 } :: after)
    ∧ (∀ (p : WProduct) (cart : List CartItem),
        cart.all (fun x => x.id != p.id) = true →
        wishlistAddToCart p cart
          = cart ++ [{ id := p.id, title := p.title, price := p.price,
                       image := p.image, quantity := 1 }]) := by
  refine ⟨?_, ?_, ?_, ?_⟩
  · intro p before after it hb hit
    have hany : (before ++ it :: after).any (fun item => item.id == p.id)
        = true := by
      refine List.any_eq_true.mpr ⟨it, ?_, ?_⟩
      · simp
      · simp [hit]
    rw [addToCart, if_pos hany]
    exact incFirst_append p.id after it hit before hb
  · intro p cart hc
    rw [addToCart, if_neg (by rw [any_eq_false_of_all_ne hc]; simp)]
  · intro p before after it hb hit
    have hany : (before ++ it :: after).any (fun item => item.id == p.id)
        = true := by
      refine List.any_eq_true.mpr ⟨it, ?_, ?_⟩
      · simp
      · simp [hit]
    rw [wishlistAddToCart, if_pos hany]
    exact incFirst_append p.id after it hit before hb
  · intro p cart hc
    rw [wishlistAddToCart, if_neg (by rw [any_eq_false_of_all_ne hc]; simp)]

/-- C6 witness: incrementing an existing item and appending a fresh one, at
concrete inputs. -/
theorem claim6_witness :
    addToCart sampleProduct ([] ++ sampleItem :: [])
        = [] ++ { sampleItem with quantity := sampleItem.quantity + 1 } :: []
    ∧ addToCart sampleProduct []
        = [] ++ [{ id := sampleProduct.id, title := sampleProduct.title,
                   price := sampleProduct.price, image := sampleProduct.image,
                   quantity := 1 }]
    ∧ wishlistAddToCart sampleWProduct []
        = [] ++ [{ id := sampleWProduct.id, title := sampleWProduct.title,
                   price := sampleWProduct.price,
                   image := sampleWProduct.image, quantity := 1 }] := by
  refine ⟨claim6_add_or_increment.1 sampleProduct [] [] sampleItem
      (by decide) (by decide),
    claim6_add_or_increment.2.1 sampleProduct [] (by decide),
    claim6_add_or_increment.2.2.2 sampleWProduct [] (by decide)⟩

/-- C7: the shop screen's `toggleWishlist` inserts an absent id and removes a
present one (membership characterization), applying it twice restores the
original membership, and the concrete scenario holds: toggling 5 on the empty
wishlist gives `[5]`, toggling again gives `[]`. -/
theorem claim7_toggle_involution :
    (∀ (wishlist : List ℤ) (productId x : ℤ),
        x ∈ toggleWishlist productId wishlist ↔
          (if x = productId then productId ∉ wishlist else x ∈ wishlist))
    ∧ (∀ (wishlist : List ℤ) (productId x : ℤ),
        x ∈ toggleWishlist productId (toggleWishlist productId wishlist) ↔
          x ∈ wishlist)
    ∧ toggleWishlist 5 [] = [5]
    ∧ toggleWishlist 5 (toggleWishlist 5 []) = [] := by
  refine ⟨fun wishlist productId x => mem_toggleWishlist productId x wishlist,
    ?_, by decide, by decide⟩
  intro wishlist productId x
  by_cases hx : x = productId
  · subst hx
    simp [mem_toggleWishlist]
  · simp [mem_toggleWishlist, hx]

/-- C8 (counterexample): the claim that one failed lookup does not abort the
bulk hydration is false at a concrete input: with ids `[1, 2]` and a catalog
that resolves 1 but fails 2, the whole `Promise.all` rejects, so the wishlist
screen keeps its previous (empty) items instead of showing the successfully
fetched product. -/
theorem claim8_counterexample :
    hydrateWishlist sampleFetch [1, 2] = none
    ∧ loadWishlistItems sampleFetch (some [1, 2]) [] = []
    ∧ sampleFetch 1 = some sampleWProduct
    ∧ ([] : List WProduct) ≠ [sampleWProduct] := by
  refine ⟨by decide, by decide, by decide, by decide⟩

/-- The empty batch of lookups resolves to the empty product list. -/
lemma hydrateWishlist_nil (f : ℤ → Option WProduct) :
    hydrateWishlist f [] = some [] := by
  unfold hydrateWishlist
  rw [List.mapM_nil]
  rfl

/-- Unfolding one lookup of the batch: the whole batch resolves only if the
head lookup and the remaining batch both resolve. -/
lemma hydrateWishlist_cons (f : ℤ → Option WProduct) (i : ℤ) (is : List ℤ) :
    hydrateWishlist f (i :: is)
      = (f i).bind (fun y =>
          (hydrateWishlist f is).bind (fun ys => some (y :: ys))) := by
  unfold hydrateWishlist
  rw [List.mapM_cons]
  rfl

/-- The `Promise.all` hydration succeeds exactly when every id's lookup
succeeds, delivering the products in id order. -/
lemma hydrateWishlist_eq_some_iff (f : ℤ → Option WProduct) :
    ∀ (ids : List ℤ) (l : List WProduct),
      hydrateWishlist f ids = some l ↔ ids.map f = l.map some := by
  intro ids
  induction ids with
  | nil =>
    intro l
    rw [hydrateWishlist_nil]
    cases l <;> simp
  | cons i is ih =>
    intro l
    rw [hydrateWishlist_cons]
    cases hf : f i with
    | none => cases l <;> simp [hf]
    | some y =>
      cases l with
      | nil => simp [hf, Option.bind_eq_some]
      | cons z zs =>
        simp only [hf, Option.some_bind, Option.bind_eq_some, Option.some_inj,
          List.cons.injEq, List.map_cons]
        constructor
        · rintro ⟨ys, hys, hy, hzs⟩
          subst hzs
          exact ⟨by rw [hy], (ih ys).mp hys⟩
        · rintro ⟨hy, hmap⟩
          exact ⟨zs, (ih zs).mpr hmap, hy.symm ▸ rfl, rfl⟩

/-- C8 (amended): the wishlist hydration is all-or-nothing — it delivers a
product list exactly when every single lookup succeeds (products in stored-id
order), and any failed lookup rejects the whole `Promise.all`, whose caught
error leaves the previously rendered wishlist items unchanged (no per-id
dropping of failures). -/
theorem claim8_amended_all_or_nothing :
    (∀ (fetchProduct : ℤ → Option WProduct) (ids : List ℤ)
        (l : List WProduct),
        hydrateWishlist fetchProduct ids = some l ↔
          ids.map fetchProduct = l.map some)
    ∧ (∀ (fetchProduct : ℤ → Option WProduct) (ids : List ℤ)
        (prev : List WProduct),
        hydrateWishlist fetchProduct ids = none →
        loadWishlistItems fetchProduct (some ids) prev = prev) := by
  constructor
  · exact fun fetchProduct => hydrateWishlist_eq_some_iff fetchProduct
  · intro fetchProduct ids prev h
    simp [loadWishlistItems, h]

/-- C8 witness: a fully successful hydration delivers the product, and the
mixed batch leaves the previous items in place. -/
theorem claim8_witness :
    hydrateWishlist sampleFetch [1] = some [sampleWProduct]
    ∧ loadWishlistItems sampleFetch (some [1, 2]) [sampleWProduct]
        = [sampleWProduct] :=
  ⟨(claim8_amended_all_or_nothing.1 sampleFetch [1] [sampleWProduct]).mpr
      (by decide),
   claim8_amended_all_or_nothing.2 sampleFetch [1, 2] [sampleWProduct]
      (by decide)⟩

/-- C9 (counterexample): the claim that stored bytes which cannot be parsed
into the expected shape make the store recover to the empty collection is
false at a concrete input: bytes that parse as valid JSON of the wrong shape
are installed into the in-memory state unvalidated, for both the cart and the
shop wishlist loaders. -/
theorem claim9_counterexample :
    loadCart (.parsed .junk) (.ok []) = .junk
    ∧ (JsVal.junk : JsVal (List CartItem)) ≠ .ok []
    ∧ shopLoadWishlist (.parsed .junk) (.ok []) = .junk := by
  refine ⟨rfl, by decide, rfl⟩

/-- C9 (amended): when no persisted value exists, when the adapter read
throws, or when the stored bytes fail `JSON.parse`, both loaders leave the
in-memory state — initially the empty collection — unchanged, with the error
caught and logged rather than propagated. -/
theorem claim9_amended_load_recovery :
    (∀ cur : JsVal (List CartItem), loadCart .absent cur = cur)
    ∧ (∀ cur : JsVal (List CartItem), loadCart .readThrows cur = cur)
    ∧ (∀ cur : JsVal (List CartItem), loadCart .malformed cur = cur)
    ∧ loadCart .absent (.ok []) = .ok []
    ∧ (∀ cur : JsVal (List ℤ), shopLoadWishlist .absent cur = cur)
    ∧ (∀ cur : JsVal (List ℤ), shopLoadWishlist .readThrows cur = cur)
    ∧ (∀ cur : JsVal (List ℤ), shopLoadWishlist .malformed cur = cur) := by
  exact ⟨fun _ => rfl, fun _ => rfl, fun _ => rfl, rfl, fun _ => rfl,
    fun _ => rfl, fun _ => rfl⟩

/-- C10: `updateQuantity` and `addToCart` leave the sublist of line items
whose id differs from the targeted id exactly unchanged — same items, same
fields, same relative order. -/
theorem claim10_frame_property :
    (∀ (pid : ℤ) (increment : Bool) (cartItems : List CartItem),
        (updateQuantity pid increment cartItems).filter
            (fun it => it.id != pid)
          = cartItems.filter (fun it => it.id != pid))
    ∧ (∀ (p : Product) (cart : List CartItem),
        (addToCart p cart).filter (fun it => it.id != p.id)
          = cart.filter (fun it => it.id != p.id)) :=
  ⟨updateQuantity_frame, addToCart_frame⟩
